import Mathlib

/-!
Shallow embedding of the Mini-Netflix player (src/streamer.py): the progress
store (SQLite table watch_positions), the catalog scanner (scan_shows), and
the playback-session state machine of the Streamer window, together with
proofs of the specification claims about them.

Positions in transport units (milliseconds) are modelled as Int; persisted
float seconds are modelled exactly as rationals.
-/

namespace MiniNetflix

/-- Constant WATCH_THRESH: milliseconds before the end at which an episode is
marked watched. -/
def WATCH_THRESH : Int := 45000

/-- Constant COUNT_MS: milliseconds before the end at which the countdown
starts. -/
def COUNT_MS : Int := 5000

/-- Constant COUNT_START: seconds of countdown. -/
def COUNT_START : Int := 5

/-- Constant MIN_PROGRESS_S: seconds of stored progress for the in-progress
dot. -/
def MIN_PROGRESS_S : ℚ := 15

/-- Truncation toward zero, the behaviour of the Python int() conversion
applied to a float. -/
def pyInt (q : ℚ) : Int := Int.tdiv q.num q.den

/-! ## Progress store (table watch_positions) -/

/-- The watch_positions table: rows (path, last_pos, watched), with path the
primary key, so a path occurs at most once. -/
abbrev Store := List (String × ℚ × Bool)

/-- Function load_pos: SELECT last_pos, watched for the path, defaulting to
(0.0, False) when no row exists. -/
def load_pos : Store → String → ℚ × Bool
  | [], _ => (0, false)
  | (p, lp, w) :: rest, path => if p = path then (lp, w) else load_pos rest path

/-- Whether a row for the path exists in the table. -/
def hasRecord : Store → String → Bool
  | [], _ => false
  | (p, _, _) :: rest, path => if p = path then true else hasRecord rest path

/-- Function save_pos: upsert.  With wat = none only last_pos is written (an
insert takes the column default watched = 0, an update keeps the stored
flag); with wat = some w both columns are written. -/
def save_pos : Store → String → ℚ → Option Bool → Store
  | [], path, secs, wat => [(path, secs, wat.getD false)]
  | (p, lp, w) :: rest, path, secs, wat =>
    if p = path then (p, secs, wat.getD w) :: rest
    else (p, lp, w) :: save_pos rest path secs wat

/-! ## Catalog scanner -/

/-- Python os.path.join for the paths the scanner builds. -/
def pathJoin (a b : String) : String := a ++ "/" ++ b

/-- Constant BASE_DIR (the directory of the script). -/
def BASE_DIR : String := "."

/-- A directory listing as os.listdir returns it: each entry name paired with
whether os.path.isdir holds of it. -/
abbrev Listing := List (String × Bool)

/-- One entry of a mount base listing: the unit name and, when
base/u/MyShows is a directory, its listing. -/
structure MountUnit where
  name : String
  myShows : Option Listing
  deriving DecidableEq

/-- One mount base (the bases /media/deck and /run/media/deck): whether
os.path.isdir(base) holds, and its unit listing. -/
structure MountBase where
  path : String
  present : Bool
  units : List MountUnit
  deriving DecidableEq

/-- The filesystem as scan_shows sees it: the listing of BASE_DIR/MyShows
when that is a directory, and the mount bases in the order the source
iterates them. -/
structure FS where
  localMyShows : Option Listing
  mounts : List MountBase
  deriving DecidableEq

/-- The name order used by Python sorted on listing entries. -/
def nameLE (a b : String × Bool) : Prop := a.1 ≤ b.1

instance : DecidableRel nameLE := fun a b => inferInstanceAs (Decidable (a.1 ≤ b.1))

instance : IsTotal (String × Bool) nameLE := ⟨fun a b => le_total a.1 b.1⟩

instance : IsTrans (String × Bool) nameLE := ⟨fun _ _ _ h1 h2 => le_trans h1 h2⟩

/-- The show entry contributed by one listing entry: kept, with its joined
path, exactly when the entry is a directory. -/
def showEntry (base : String) (e : String × Bool) : Option (String × String) :=
  if e.2 then some (e.1, pathJoin base e.1) else none

/-- Shows found in one directory: for d in sorted(os.listdir(dir)), keep the
subdirectories as (d, join(dir, d)). -/
def dirShows (base : String) (listing : Listing) : List (String × String) :=
  (List.insertionSort nameLE listing).filterMap (showEntry base)

/-- Shows contributed by one mount base: nothing when the base is not a
directory, else the shows of u/MyShows for each unit u in listing order. -/
def mountShows (b : MountBase) : List (String × String) :=
  if b.present then
    b.units.flatMap fun u =>
      match u.myShows with
      | some listing => dirShows (pathJoin (pathJoin b.path u.name) "MyShows") listing
      | none => []
  else []

/-- Function scan_shows: the local MyShows directory first, then each mount
base in turn. -/
def scan_shows (fs : FS) : List (String × String) :=
  (match fs.localMyShows with
   | some listing => dirShows (pathJoin BASE_DIR "MyShows") listing
   | none => []) ++ fs.mounts.flatMap mountShows

/-! ## Playback session -/

/-- The playback and countdown state of the Streamer window, together with
the progress database it writes through save_pos.  The toast fields model
the countdown indicator, cd_timer_active whether the one-second timer runs,
playing whether the transport playback state is PlayingState. -/
structure Session where
  current_path : String
  next_resume : ℚ
  duration : Int
  cd_started : Bool
  cd_sec : Int
  cd_timer_active : Bool
  toast_visible : Bool
  toast_text : Int
  player_pos : Int
  playing : Bool
  db : Store
  deriving DecidableEq

/-- The transport media status values the handler distinguishes:
RESUME_STATUS (BufferedMedia), END_OF_MEDIA, and anything else. -/
inductive MediaStatus where
  | bufferedMedia
  | endOfMedia
  | other
  deriving DecidableEq

namespace Streamer

/-- Method start_play: set the source and play, reset the countdown state,
hide the toast and stop the countdown timer. -/
def start_play (s : Session) (path : String) : Session :=
  { s with current_path := path, playing := true,
           cd_started := false, toast_visible := false, cd_timer_active := false }

/-- Method on_ep: activating row idx of the episode list looks up the record
of that episode, forces the resume offset to 0 when it is watched, and
starts playback.  (Out-of-range idx raises in Python; the UI never passes
one, and the embedding returns the state unchanged there.) -/
def on_ep (s : Session) (eps : List (String × String)) (idx : Nat) : Session :=
  match eps[idx]? with
  | none => s
  | some (_t, path) =>
    let r := load_pos s.db path
    start_play { s with next_resume := if r.2 then 0 else r.1 } path

/-- First block of method on_pos: hide the toast and stop the countdown if it
is running and the position moved back above the countdown window. -/
def cd_cancel_step (s : Session) (pos : Int) : Session :=
  if s.cd_started = true ∧ s.duration ≠ 0 ∧ pos < s.duration - COUNT_MS then
    { s with cd_started := false, cd_timer_active := false, toast_visible := false }
  else s

/-- Second block of method on_pos: start the countdown when inside the
window and not already started. -/
def cd_start_step (s : Session) (pos : Int) : Session :=
  if s.cd_started = false ∧ s.duration ≠ 0 ∧ s.duration - COUNT_MS ≤ pos then
    { s with cd_started := true, cd_sec := COUNT_START,
             toast_visible := true, toast_text := COUNT_START, cd_timer_active := true }
  else s

/-- Last block of method on_pos: past duration - WATCH_THRESH, persist the
current episode at pos/1000 seconds with watched = True. -/
def watch_step (s : Session) (pos : Int) : Session :=
  if s.duration - WATCH_THRESH ≤ pos then
    { s with db := save_pos s.db s.current_path ((pos : ℚ) / 1000) (some true) }
  else s

/-- Method on_pos, the position-tick handler: the three blocks in source
order.  (The slider and time-label updates between them are pure
presentation and carry no session state.) -/
def on_pos (s : Session) (pos : Int) : Session :=
  watch_step (cd_start_step (cd_cancel_step s pos) pos) pos

/-- Method _tick, the countdown timer callback: do nothing unless playing,
else decrement the remaining seconds; refresh the toast while they stay
positive, otherwise stop the timer. -/
def tick (s : Session) : Session :=
  if s.playing = false then s
  else
    let s1 := { s with cd_sec := s.cd_sec - 1 }
    if 0 < s1.cd_sec then { s1 with toast_visible := true, toast_text := s1.cd_sec }
    else { s1 with cd_timer_active := false }

/-- Method next_ep: find the current episode among the episode paths and,
unless it is the last, select the following one (record lookup, watched
forces resume 0, start_play).  (A current path absent from the list raises
in Python; the embedding is a no-op there, and no claim depends on it.) -/
def next_ep (s : Session) (eps : List (String × String)) : Session :=
  let paths := eps.map Prod.snd
  let i := paths.indexOf s.current_path
  if i + 1 < paths.length then
    match eps[i + 1]? with
    | some (_t, p) =>
      let r := load_pos s.db p
      start_play { s with next_resume := if r.2 then 0 else r.1 } p
    | none => s
  else s

/-- Method prev_ep: symmetric to next_ep, a no-op at the first episode. -/
def prev_ep (s : Session) (eps : List (String × String)) : Session :=
  let paths := eps.map Prod.snd
  let i := paths.indexOf s.current_path
  if 0 < i then
    match eps[i - 1]? with
    | some (_t, p) =>
      let r := load_pos s.db p
      start_play { s with next_resume := if r.2 then 0 else r.1 } p
    | none => s
  else s

/-- Method on_status: on RESUME_STATUS with a nonzero pending resume, seek to
int(next_resume * 1000) and clear it; on END_OF_MEDIA hide the toast and
advance to the next episode. -/
def on_status (s : Session) (eps : List (String × String)) (st : MediaStatus) : Session :=
  match st with
  | .bufferedMedia =>
    if s.next_resume ≠ 0 then
      { s with player_pos := pyInt (s.next_resume * 1000), next_resume := 0 }
    else s
  | .endOfMedia => next_ep { s with toast_visible := false } eps
  | .other => s

/-- Method seek, the slider handler: with a known duration, reposition the
player at int((v / 1000) * duration). -/
def seek (s : Session) (v : Int) : Session :=
  if s.duration ≠ 0 then
    { s with player_pos := pyInt ((v : ℚ) / 1000 * (s.duration : ℚ)) }
  else s

/-- Method rewind: move back 5000 ms (clamped at 0) and, when the resulting
position is below the watched threshold, persist it with watched = False. -/
def rewind (s : Session) : Session :=
  let s1 := { s with player_pos := max 0 (s.player_pos - 5000) }
  if s1.player_pos < s1.duration - WATCH_THRESH then
    { s1 with db := save_pos s1.db s1.current_path ((s1.player_pos : ℚ) / 1000) (some false) }
  else s1

/-- Method skip: move forward 5000 ms (clamped at the duration) and, when the
resulting position is below the watched threshold, persist it with
watched = False. -/
def skip (s : Session) : Session :=
  let s1 := { s with player_pos := min s.duration (s.player_pos + 5000) }
  if s1.player_pos < s1.duration - WATCH_THRESH then
    { s1 with db := save_pos s1.db s1.current_path ((s1.player_pos : ℚ) / 1000) (some false) }
  else s1

end Streamer

/-! ## Concrete data used to instantiate the theorems -/

/-- A two-episode show. -/
def eps1 : List (String × String) := [("E1", "p1"), ("E2", "p2")]

/-- A three-episode show. -/
def eps3 : List (String × String) := [("E1", "p1"), ("E2", "p2"), ("E3", "p3")]

/-- A session playing the first episode of eps1, duration 100 s, no countdown,
empty store. -/
def baseSession : Session :=
  { current_path := "p1", next_resume := 0, duration := 100000, cd_started := false,
    cd_sec := COUNT_START, cd_timer_active := false, toast_visible := false,
    toast_text := COUNT_START, player_pos := 0, playing := true, db := [] }

/-- A session in the last countdown second. -/
def sTick : Session :=
  { baseSession with cd_started := true, cd_sec := 1, cd_timer_active := true,
                     toast_visible := true, toast_text := 1, player_pos := 99000 }

/-- A session on an episode whose record is already watched. -/
def sWatch : Session :=
  { baseSession with current_path := "k", player_pos := 50000, db := [("k", 1, true)] }

/-- A session mid-countdown. -/
def sCount : Session :=
  { baseSession with cd_started := true, cd_sec := 3, cd_timer_active := true,
                     toast_visible := true, toast_text := 3 }

/-- A session with a stored in-progress position for the current episode. -/
def sSeek : Session :=
  { baseSession with current_path := "f", player_pos := 48000, db := [("f", 7, false)] }

/-- A session with a pending resume offset of 2 s. -/
def sResume : Session := { baseSession with next_resume := 2 }

/-- A session on the last episode of eps1. -/
def sLast : Session := { baseSession with current_path := "p2" }

/-- A session on the middle episode of eps3, with records for its
neighbours. -/
def sNav : Session :=
  { baseSession with current_path := "p2", db := [("p1", 9, true), ("p3", 4, false)] }

/-- A session whose transport has not yet reported a duration. -/
def sNoDur : Session := { baseSession with duration := 0, current_path := "e1" }

/-- A filesystem with one local show and one mounted show whose name sorts
before it. -/
def fs9 : FS :=
  { localMyShows := some [("Zeta", true)],
    mounts := [{ path := "/media/deck", present := true,
                 units := [{ name := "u1", myShows := some [("Alpha", true)] }] }] }

/-! ## Store lemmas -/

/-- Reading back after an upsert: at the written key the position is the new
one and the watched flag is the supplied value, or the previously stored one
when omitted; other keys are untouched.  (For an absent row the stored flag
and the inserted default coincide: both false.) -/
theorem load_pos_save_pos (db : Store) (path q : String) (secs : ℚ) (wat : Option Bool) :
    load_pos (save_pos db path secs wat) q =
      if q = path then (secs, wat.getD (load_pos db path).2) else load_pos db q := by
  induction db with
  | nil =>
    by_cases h : q = path
    · subst h; simp [save_pos, load_pos]
    · have h2 : ¬ path = q := fun hh => h hh.symm
      simp [save_pos, load_pos, h, h2]
  | cons e rest ih =>
    obtain ⟨p, lp, w⟩ := e
    by_cases hp : p = path
    · subst hp
      by_cases hq : p = q
      · subst hq; simp [save_pos, load_pos]
      · have h2 : ¬ q = p := fun hh => hq hh.symm
        simp [save_pos, load_pos, hq, h2]
    · by_cases hq : p = q
      · subst hq
        simp [save_pos, load_pos, hp]
      · simp [save_pos, load_pos, hp, hq, ih]

/-! ## Session step lemmas -/

namespace Streamer

theorem cd_cancel_step_db (s : Session) (pos : Int) :
    (cd_cancel_step s pos).db = s.db := by
  unfold cd_cancel_step; split <;> rfl

theorem cd_cancel_step_current_path (s : Session) (pos : Int) :
    (cd_cancel_step s pos).current_path = s.current_path := by
  unfold cd_cancel_step; split <;> rfl

theorem cd_cancel_step_duration (s : Session) (pos : Int) :
    (cd_cancel_step s pos).duration = s.duration := by
  unfold cd_cancel_step; split <;> rfl

theorem cd_cancel_step_cd_sec (s : Session) (pos : Int) :
    (cd_cancel_step s pos).cd_sec = s.cd_sec := by
  unfold cd_cancel_step; split <;> rfl

theorem cd_cancel_step_toast_text (s : Session) (pos : Int) :
    (cd_cancel_step s pos).toast_text = s.toast_text := by
  unfold cd_cancel_step; split <;> rfl

theorem cd_start_step_db (s : Session) (pos : Int) :
    (cd_start_step s pos).db = s.db := by
  unfold cd_start_step; split <;> rfl

theorem cd_start_step_current_path (s : Session) (pos : Int) :
    (cd_start_step s pos).current_path = s.current_path := by
  unfold cd_start_step; split <;> rfl

theorem cd_start_step_duration (s : Session) (pos : Int) :
    (cd_start_step s pos).duration = s.duration := by
  unfold cd_start_step; split <;> rfl

theorem watch_step_eq (s : Session) (pos : Int) :
    watch_step s pos =
      if s.duration - WATCH_THRESH ≤ pos
      then { s with db := save_pos s.db s.current_path ((pos : ℚ) / 1000) (some true) }
      else s := rfl

theorem watch_step_cd_started (s : Session) (pos : Int) :
    (watch_step s pos).cd_started = s.cd_started := by
  unfold watch_step; split <;> rfl

theorem watch_step_cd_sec (s : Session) (pos : Int) :
    (watch_step s pos).cd_sec = s.cd_sec := by
  unfold watch_step; split <;> rfl

theorem watch_step_cd_timer_active (s : Session) (pos : Int) :
    (watch_step s pos).cd_timer_active = s.cd_timer_active := by
  unfold watch_step; split <;> rfl

theorem watch_step_toast_visible (s : Session) (pos : Int) :
    (watch_step s pos).toast_visible = s.toast_visible := by
  unfold watch_step; split <;> rfl

theorem watch_step_toast_text (s : Session) (pos : Int) :
    (watch_step s pos).toast_text = s.toast_text := by
  unfold watch_step; split <;> rfl

/-- The position-tick handler leaves the current episode unchanged. -/
theorem on_pos_current_path (s : Session) (pos : Int) :
    (on_pos s pos).current_path = s.current_path := by
  unfold on_pos watch_step
  split <;> rw [cd_start_step_current_path, cd_cancel_step_current_path]

/-- The position-tick handler leaves the duration unchanged. -/
theorem on_pos_duration (s : Session) (pos : Int) :
    (on_pos s pos).duration = s.duration := by
  unfold on_pos watch_step
  split <;> rw [cd_start_step_duration, cd_cancel_step_duration]

/-- The database written by the position-tick handler: the current record at
pos/1000 seconds with watched true when past the threshold, untouched
otherwise. -/
theorem on_pos_db (s : Session) (pos : Int) :
    (on_pos s pos).db =
      if s.duration - WATCH_THRESH ≤ pos
      then save_pos s.db s.current_path ((pos : ℚ) / 1000) (some true)
      else s.db := by
  unfold on_pos
  rw [watch_step_eq]
  rw [cd_start_step_duration, cd_cancel_step_duration]
  split
  · show (_ : Session).db = _
    rw [cd_start_step_db, cd_cancel_step_db,
        cd_start_step_current_path, cd_cancel_step_current_path]
  · rw [cd_start_step_db, cd_cancel_step_db]

end Streamer

/-! ## Claims -/

/-- C2: for every identifier and position, a put with the watched argument
omitted leaves the watched flag of an existing record unchanged and updates
only the position, while a put with watched supplied overwrites both
fields. -/
theorem C2_put_watched (db : Store) (path : String) (secs : ℚ)
    (_hex : hasRecord db path = true) :
    load_pos (save_pos db path secs none) path = (secs, (load_pos db path).2)
  ∧ ∀ w : Bool, load_pos (save_pos db path secs (some w)) path = (secs, w) := by
  refine ⟨?_, fun w => ?_⟩ <;> rw [load_pos_save_pos, if_pos rfl] <;> rfl

/-- Witness for C2 on a concrete store with an existing watched record. -/
theorem C2_put_watched_witness :
    load_pos (save_pos [("e1", (10 : ℚ), true)] "e1" 3 none) "e1" = (3, true)
  ∧ load_pos (save_pos [("e1", (10 : ℚ), true)] "e1" 3 (some false)) "e1" = (3, false) := by
  have h := C2_put_watched [("e1", (10 : ℚ), true)] "e1" 3 (by decide)
  exact ⟨h.1.trans (by decide), h.2 false⟩

/-- C4: with the duration known, a position tick at or past duration minus the
45 s threshold persists the current record with watched = true, and a tick
never turns a stored watched flag off. -/
theorem C4_watch_threshold (s : Session) (pos : Int) :
    (s.duration ≠ 0 → s.duration - WATCH_THRESH ≤ pos →
      load_pos (Streamer.on_pos s pos).db s.current_path = ((pos : ℚ) / 1000, true))
  ∧ ∀ q : String, (load_pos s.db q).2 = true →
      (load_pos (Streamer.on_pos s pos).db q).2 = true := by
  constructor
  · intro _ h45
    rw [Streamer.on_pos_db, if_pos h45, load_pos_save_pos, if_pos rfl]
    rfl
  · intro q hq
    rw [Streamer.on_pos_db]
    split
    · rw [load_pos_save_pos]
      split
      · rfl
      · exact hq
    · exact hq

/-- Witness for C4: a tick at 56 s of a 100 s episode writes (56, true), and
the already-watched record stays watched. -/
theorem C4_watch_threshold_witness :
    load_pos (Streamer.on_pos sWatch 56000).db "k" = (56, true)
  ∧ (load_pos (Streamer.on_pos sWatch 56000).db "k").2 = true := by
  have h := C4_watch_threshold sWatch 56000
  have h1 := h.1 (by decide) (by decide)
  exact ⟨h1.trans (by norm_num), h.2 "k" (by decide)⟩

/-- C10: a position tick delivered while the duration is still its initial
value 0 persists the current record with watched = true whatever the
position, the threshold comparison being unguarded; the countdown checks are
guarded by a nonzero duration and do not fire. -/
theorem C10_unguarded_watch (s : Session) (pos : Int)
    (hd : s.duration = 0) (hpos : 0 ≤ pos) :
    load_pos (Streamer.on_pos s pos).db s.current_path = ((pos : ℚ) / 1000, true)
  ∧ (Streamer.on_pos s pos).cd_started = s.cd_started := by
  constructor
  · rw [Streamer.on_pos_db, if_pos (by rw [hd]; unfold WATCH_THRESH; omega),
        load_pos_save_pos, if_pos rfl]
    rfl
  · unfold Streamer.on_pos
    rw [Streamer.watch_step_cd_started]
    unfold Streamer.cd_start_step
    rw [if_neg (by rw [Streamer.cd_cancel_step_duration]; rintro ⟨-, hne, -⟩; exact hne hd)]
    unfold Streamer.cd_cancel_step
    rw [if_neg (by rintro ⟨-, hne, -⟩; exact hne hd)]

/-- Witness for C10: at 3 s into an episode with unknown duration the record
is already marked watched. -/
theorem C10_unguarded_watch_witness :
    load_pos (Streamer.on_pos sNoDur 3000).db "e1" = (3, true)
  ∧ (Streamer.on_pos sNoDur 3000).cd_started = false := by
  have h := C10_unguarded_watch sNoDur 3000 (by decide) (by decide)
  exact ⟨h.1.trans (by norm_num), h.2.trans (by decide)⟩

/-! ## Countdown step behaviour -/

namespace Streamer

theorem cd_cancel_step_of_inwindow (s : Session) (pos : Int)
    (h : s.duration - COUNT_MS ≤ pos) : cd_cancel_step s pos = s := by
  unfold cd_cancel_step
  rw [if_neg]
  rintro ⟨-, -, hlt⟩
  omega

theorem cd_cancel_step_of_not_started (s : Session) (pos : Int)
    (h0 : s.cd_started = false) : cd_cancel_step s pos = s := by
  unfold cd_cancel_step
  rw [if_neg]
  rintro ⟨h1, -⟩
  exact Bool.noConfusion (h1.symm.trans h0)

theorem cd_cancel_step_cancels (s : Session) (pos : Int) (hcd : s.cd_started = true)
    (hd : s.duration ≠ 0) (hlt : pos < s.duration - COUNT_MS) :
    cd_cancel_step s pos =
      { s with cd_started := false, cd_timer_active := false, toast_visible := false } := by
  unfold cd_cancel_step
  rw [if_pos ⟨hcd, hd, hlt⟩]

theorem cd_start_step_of_started (s : Session) (pos : Int)
    (hcd : s.cd_started = true) : cd_start_step s pos = s := by
  unfold cd_start_step
  rw [if_neg]
  rintro ⟨h0, -⟩
  exact Bool.noConfusion (hcd.symm.trans h0)

theorem cd_start_step_of_below (s : Session) (pos : Int)
    (hlt : pos < s.duration - COUNT_MS) : cd_start_step s pos = s := by
  unfold cd_start_step
  rw [if_neg]
  rintro ⟨-, -, hge⟩
  omega

theorem cd_start_step_starts (s : Session) (pos : Int) (h0 : s.cd_started = false)
    (hd : s.duration ≠ 0) (hge : s.duration - COUNT_MS ≤ pos) :
    cd_start_step s pos =
      { s with cd_started := true, cd_sec := COUNT_START, toast_visible := true,
               toast_text := COUNT_START, cd_timer_active := true } := by
  unfold cd_start_step
  rw [if_pos ⟨h0, hd, hge⟩]

/-- A tick inside the window with no countdown running starts one from
COUNT_START. -/
theorem on_pos_restart (s : Session) (pos : Int) (h0 : s.cd_started = false)
    (hd : s.duration ≠ 0) (hge : s.duration - COUNT_MS ≤ pos) :
    (on_pos s pos).cd_started = true ∧ (on_pos s pos).cd_sec = COUNT_START
    ∧ (on_pos s pos).cd_timer_active = true := by
  unfold on_pos
  rw [cd_cancel_step_of_not_started s pos h0, cd_start_step_starts s pos h0 hd hge,
      watch_step_cd_started, watch_step_cd_sec, watch_step_cd_timer_active]
  exact ⟨rfl, rfl, rfl⟩

end Streamer

/-- C5: while a countdown is running, ticks inside the 5 s window do not
restart it; a position back above the window cancels it (timer stopped,
toast hidden); a later tick inside the window starts it again from
COUNT_START. -/
theorem C5_countdown_guard (s : Session) (pos pos2 : Int)
    (hd : s.duration ≠ 0) (hcd : s.cd_started = true) :
    (s.duration - COUNT_MS ≤ pos →
      (Streamer.on_pos s pos).cd_started = true
      ∧ (Streamer.on_pos s pos).cd_sec = s.cd_sec
      ∧ (Streamer.on_pos s pos).cd_timer_active = s.cd_timer_active
      ∧ (Streamer.on_pos s pos).toast_text = s.toast_text)
  ∧ (pos < s.duration - COUNT_MS →
      (Streamer.on_pos s pos).cd_started = false
      ∧ (Streamer.on_pos s pos).cd_timer_active = false
      ∧ (Streamer.on_pos s pos).toast_visible = false
      ∧ (s.duration - COUNT_MS ≤ pos2 →
          (Streamer.on_pos (Streamer.on_pos s pos) pos2).cd_started = true
          ∧ (Streamer.on_pos (Streamer.on_pos s pos) pos2).cd_sec = COUNT_START
          ∧ (Streamer.on_pos (Streamer.on_pos s pos) pos2).cd_timer_active = true)) := by
  constructor
  · intro hge
    unfold Streamer.on_pos
    rw [Streamer.cd_cancel_step_of_inwindow s pos hge,
        Streamer.cd_start_step_of_started s pos hcd,
        Streamer.watch_step_cd_started, Streamer.watch_step_cd_sec,
        Streamer.watch_step_cd_timer_active, Streamer.watch_step_toast_text]
    exact ⟨hcd, rfl, rfl, rfl⟩
  · intro hlt
    have hc := Streamer.cd_cancel_step_cancels s pos hcd hd hlt
    have hs2 : Streamer.cd_start_step (Streamer.cd_cancel_step s pos) pos =
        Streamer.cd_cancel_step s pos := by
      apply Streamer.cd_start_step_of_below
      rw [hc]
      exact hlt
    have hA : (Streamer.on_pos s pos).cd_started = false := by
      unfold Streamer.on_pos
      rw [hs2, hc, Streamer.watch_step_cd_started]
    have hB : (Streamer.on_pos s pos).cd_timer_active = false := by
      unfold Streamer.on_pos
      rw [hs2, hc, Streamer.watch_step_cd_timer_active]
    have hC : (Streamer.on_pos s pos).toast_visible = false := by
      unfold Streamer.on_pos
      rw [hs2, hc, Streamer.watch_step_toast_visible]
    refine ⟨hA, hB, hC, fun hge2 => ?_⟩
    have hdur : (Streamer.on_pos s pos).duration = s.duration := Streamer.on_pos_duration s pos
    exact Streamer.on_pos_restart (Streamer.on_pos s pos) pos2 hA
      (by rw [hdur]; exact hd) (by rw [hdur]; exact hge2)

/-- Witness for C5: a 100 s episode mid-countdown; a tick at 99 s keeps the
3 s remaining, a tick at 90 s cancels, a following tick at 96 s restarts
from 5. -/
theorem C5_countdown_guard_witness :
    (Streamer.on_pos sCount 99000).cd_sec = 3
  ∧ (Streamer.on_pos sCount 90000).cd_started = false
  ∧ (Streamer.on_pos sCount 90000).cd_timer_active = false
  ∧ (Streamer.on_pos (Streamer.on_pos sCount 90000) 96000).cd_started = true
  ∧ (Streamer.on_pos (Streamer.on_pos sCount 90000) 96000).cd_sec = COUNT_START := by
  have h1 := C5_countdown_guard sCount 99000 96000 (by decide) (by decide)
  have h2 := C5_countdown_guard sCount 90000 96000 (by decide) (by decide)
  have hin := h1.1 (by decide)
  have hcan := h2.2 (by decide)
  have hre := hcan.2.2.2 (by decide)
  exact ⟨hin.2.1.trans (by decide), hcan.1, hcan.2.1, hre.1, hre.2.1⟩

/-- Counterexample to C6: a slider seek that lands below the watched
threshold does not write to the store at all; the stored in-progress
position stays 7 s although the claim requires it to become the resulting
10 s with watched false. -/
theorem C6_seek_counterexample :
    (Streamer.seek sSeek 100).player_pos = 10000
  ∧ (Streamer.seek sSeek 100).player_pos < sSeek.duration - WATCH_THRESH
  ∧ (Streamer.seek sSeek 100).db = sSeek.db
  ∧ load_pos (Streamer.seek sSeek 100).db sSeek.current_path = (7, false)
  ∧ load_pos (Streamer.seek sSeek 100).db sSeek.current_path ≠
      (((Streamer.seek sSeek 100).player_pos : ℚ) / 1000, false) := by
  have hdb : (Streamer.seek sSeek 100).db = sSeek.db := by
    unfold Streamer.seek
    split <;> rfl
  have hp : (Streamer.seek sSeek 100).player_pos = 10000 := by
    unfold Streamer.seek
    rw [if_pos (by decide)]
    show pyInt ((100 : ℚ) / 1000 * ((100000 : Int) : ℚ)) = 10000
    norm_num [pyInt]
  refine ⟨hp, by rw [hp]; decide, hdb, by rw [hdb]; decide, ?_⟩
  rw [hdb, hp]
  have hl : load_pos sSeek.db sSeek.current_path = (7, false) := by decide
  rw [hl]
  intro hcontra
  have : (7 : ℚ) = ((10000 : Int) : ℚ) / 1000 := congrArg Prod.fst hcontra
  norm_num at this

/-- C6 as amended: rewind and skip persist the resulting position with
watched = false whenever it lands below duration minus the 45 s threshold,
overwriting the stored position; the slider seek handler only repositions
the player and never writes to the store. -/
theorem C6_manual_saves (s : Session) (v : Int) :
    (Streamer.seek s v).db = s.db
  ∧ ((Streamer.rewind s).player_pos < s.duration - WATCH_THRESH →
      load_pos (Streamer.rewind s).db s.current_path =
        (((Streamer.rewind s).player_pos : ℚ) / 1000, false))
  ∧ ((Streamer.skip s).player_pos < s.duration - WATCH_THRESH →
      load_pos (Streamer.skip s).db s.current_path =
        (((Streamer.skip s).player_pos : ℚ) / 1000, false)) := by
  have hre : Streamer.rewind s =
      if max 0 (s.player_pos - 5000) < s.duration - WATCH_THRESH then
        { s with player_pos := max 0 (s.player_pos - 5000),
                 db := save_pos s.db s.current_path
                   (((max 0 (s.player_pos - 5000) : Int) : ℚ) / 1000) (some false) }
      else { s with player_pos := max 0 (s.player_pos - 5000) } := rfl
  have hsk : Streamer.skip s =
      if min s.duration (s.player_pos + 5000) < s.duration - WATCH_THRESH then
        { s with player_pos := min s.duration (s.player_pos + 5000),
                 db := save_pos s.db s.current_path
                   (((min s.duration (s.player_pos + 5000) : Int) : ℚ) / 1000) (some false) }
      else { s with player_pos := min s.duration (s.player_pos + 5000) } := rfl
  have hrp : (Streamer.rewind s).player_pos = max 0 (s.player_pos - 5000) := by
    rw [hre]
    split <;> rfl
  have hsp : (Streamer.skip s).player_pos = min s.duration (s.player_pos + 5000) := by
    rw [hsk]
    split <;> rfl
  refine ⟨?_, ?_, ?_⟩
  · unfold Streamer.seek
    split <;> rfl
  · intro hlt
    rw [hrp] at hlt
    rw [hrp, hre, if_pos hlt]
    show load_pos (save_pos s.db s.current_path
        (((max 0 (s.player_pos - 5000) : Int) : ℚ) / 1000) (some false)) s.current_path = _
    rw [load_pos_save_pos, if_pos rfl]
    rfl
  · intro hlt
    rw [hsp] at hlt
    rw [hsp, hsk, if_pos hlt]
    show load_pos (save_pos s.db s.current_path
        (((min s.duration (s.player_pos + 5000) : Int) : ℚ) / 1000) (some false)) s.current_path = _
    rw [load_pos_save_pos, if_pos rfl]
    rfl

/-- Witness for C6 as amended: from 48 s of a 100 s episode, rewind writes
(43, false) and skip writes (53, false); a seek leaves the store alone. -/
theorem C6_manual_saves_witness :
    (Streamer.seek sSeek 100).db = sSeek.db
  ∧ load_pos (Streamer.rewind sSeek).db "f" = (43, false)
  ∧ load_pos (Streamer.skip sSeek).db "f" = (53, false) := by
  have h := C6_manual_saves sSeek 100
  have hr := h.2.1 (by decide)
  have hs := h.2.2 (by decide)
  refine ⟨h.1, hr.trans ?_, hs.trans ?_⟩
  · rw [show (Streamer.rewind sSeek).player_pos = 43000 from by decide]
    norm_num
  · rw [show (Streamer.skip sSeek).player_pos = 53000 from by decide]
    norm_num

/-- A ready status with a pending resume seeks and clears it. -/
theorem on_status_buffered_seek (s : Session) (eps : List (String × String))
    (h : s.next_resume ≠ 0) :
    Streamer.on_status s eps .bufferedMedia =
      { s with player_pos := pyInt (s.next_resume * 1000), next_resume := 0 } := by
  simp only [Streamer.on_status]
  rw [if_pos h]

/-- A ready status with no pending resume changes nothing. -/
theorem on_status_buffered_noop (s : Session) (eps : List (String × String))
    (h : s.next_resume = 0) :
    Streamer.on_status s eps .bufferedMedia = s := by
  simp only [Streamer.on_status]
  rw [if_neg (fun hh => hh h)]

/-- C7: a ready-to-seek status with a nonzero pending resume seeks to
int(next_resume * 1000) and clears the pending offset, so a second ready
event changes nothing; with a zero pending offset a ready event is a
complete no-op. -/
theorem C7_resume_consumed_once (s : Session) (eps : List (String × String)) :
    (s.next_resume ≠ 0 →
      (Streamer.on_status s eps .bufferedMedia).player_pos = pyInt (s.next_resume * 1000)
      ∧ (Streamer.on_status s eps .bufferedMedia).next_resume = 0
      ∧ Streamer.on_status (Streamer.on_status s eps .bufferedMedia) eps .bufferedMedia =
          Streamer.on_status s eps .bufferedMedia)
  ∧ (s.next_resume = 0 → Streamer.on_status s eps .bufferedMedia = s) := by
  constructor
  · intro h
    have e := on_status_buffered_seek s eps h
    rw [e]
    exact ⟨rfl, rfl, on_status_buffered_noop _ eps rfl⟩
  · exact on_status_buffered_noop s eps

/-- Witness for C7: a pending resume of 2 s seeks to 2000 ms once; the second
ready event is a no-op. -/
theorem C7_resume_consumed_once_witness :
    (Streamer.on_status sResume eps1 .bufferedMedia).player_pos = 2000
  ∧ (Streamer.on_status sResume eps1 .bufferedMedia).next_resume = 0
  ∧ Streamer.on_status (Streamer.on_status sResume eps1 .bufferedMedia) eps1 .bufferedMedia =
      Streamer.on_status sResume eps1 .bufferedMedia := by
  have h := (C7_resume_consumed_once sResume eps1).1 (by decide)
  refine ⟨h.1.trans ?_, h.2.1, h.2.2⟩
  show pyInt ((2 : ℚ) * 1000) = 2000
  norm_num [pyInt]

/-! ## Navigation lemmas -/

namespace Streamer

/-- When a following episode exists, next_ep selects it through the standard
record lookup and start_play. -/
theorem next_ep_spec (s : Session) (eps : List (String × String)) (t p : String)
    (h : eps[(eps.map Prod.snd).indexOf s.current_path + 1]? = some (t, p)) :
    next_ep s eps =
      start_play
        { s with next_resume := if (load_pos s.db p).2 then 0 else (load_pos s.db p).1 } p := by
  have hlt : (eps.map Prod.snd).indexOf s.current_path + 1 < (eps.map Prod.snd).length := by
    obtain ⟨hl, -⟩ := List.getElem?_eq_some.mp h
    rw [List.length_map]
    exact hl
  simp only [next_ep]
  rw [if_pos hlt, h]

/-- When a preceding episode exists, prev_ep selects it. -/
theorem prev_ep_spec (s : Session) (eps : List (String × String)) (t p : String)
    (h0 : 0 < (eps.map Prod.snd).indexOf s.current_path)
    (h : eps[(eps.map Prod.snd).indexOf s.current_path - 1]? = some (t, p)) :
    prev_ep s eps =
      start_play
        { s with next_resume := if (load_pos s.db p).2 then 0 else (load_pos s.db p).1 } p := by
  simp only [prev_ep]
  rw [if_pos h0, h]

/-- next_ep is the identity when no following index exists. -/
theorem next_ep_noop (s : Session) (eps : List (String × String))
    (h : ¬ ((eps.map Prod.snd).indexOf s.current_path + 1 < (eps.map Prod.snd).length)) :
    next_ep s eps = s := by
  simp only [next_ep]
  rw [if_neg h]

/-- prev_ep is the identity when the current index is 0. -/
theorem prev_ep_noop (s : Session) (eps : List (String × String))
    (h : ¬ (0 < (eps.map Prod.snd).indexOf s.current_path)) :
    prev_ep s eps = s := by
  simp only [prev_ep]
  rw [if_neg h]

end Streamer

/-- C3: episode selection from the list, and prev and next navigation, force
the pending resume offset to 0 when the target record is watched and to the
stored position otherwise. -/
theorem C3_watched_restarts (s : Session) (eps : List (String × String)) :
    (∀ idx t path, eps[idx]? = some (t, path) →
      (Streamer.on_ep s eps idx).next_resume =
        if (load_pos s.db path).2 then 0 else (load_pos s.db path).1)
  ∧ (∀ t p, eps[(eps.map Prod.snd).indexOf s.current_path + 1]? = some (t, p) →
      (Streamer.next_ep s eps).next_resume =
        if (load_pos s.db p).2 then 0 else (load_pos s.db p).1)
  ∧ (∀ t p, 0 < (eps.map Prod.snd).indexOf s.current_path →
      eps[(eps.map Prod.snd).indexOf s.current_path - 1]? = some (t, p) →
      (Streamer.prev_ep s eps).next_resume =
        if (load_pos s.db p).2 then 0 else (load_pos s.db p).1) := by
  refine ⟨?_, ?_, ?_⟩
  · intro idx t path h
    unfold Streamer.on_ep
    rw [h]
    rfl
  · intro t p h
    rw [Streamer.next_ep_spec s eps t p h]
    rfl
  · intro t p h0 h
    rw [Streamer.prev_ep_spec s eps t p h0 h]
    rfl


/-- Witness for C3 on the middle episode of a three-episode show: selecting
the watched first episode resumes at 0, next goes to the third at its stored
4 s, prev goes to the watched first at 0. -/
theorem C3_watched_restarts_witness :
    (Streamer.on_ep sNav eps3 0).next_resume = 0
  ∧ (Streamer.next_ep sNav eps3).next_resume = 4
  ∧ (Streamer.prev_ep sNav eps3).next_resume = 0 := by
  have h := C3_watched_restarts sNav eps3
  exact ⟨(h.1 0 "E1" "p1" (by decide)).trans (by decide),
         (h.2.1 "E3" "p3" (by decide)).trans (by decide),
         (h.2.2 "E1" "p1" (by decide) (by decide)).trans (by decide)⟩

/-- C8: at the last episode, next-episode navigation is a silent no-op (and
the end-of-media handler only hides the toast); at the first episode, prev
is a silent no-op. -/
theorem C8_boundary_noop (s : Session) (eps : List (String × String)) :
    ((eps.map Prod.snd).indexOf s.current_path = eps.length - 1 →
      Streamer.next_ep s eps = s
      ∧ Streamer.on_status s eps .endOfMedia = { s with toast_visible := false })
  ∧ ((eps.map Prod.snd).indexOf s.current_path = 0 →
      Streamer.prev_ep s eps = s) := by
  constructor
  · intro hi
    have hno : ¬ ((eps.map Prod.snd).indexOf s.current_path + 1 <
        (eps.map Prod.snd).length) := by
      rw [hi, List.length_map]
      omega
    refine ⟨Streamer.next_ep_noop s eps hno, ?_⟩
    show Streamer.next_ep { s with toast_visible := false } eps = _
    exact Streamer.next_ep_noop _ eps hno
  · intro hi
    apply Streamer.prev_ep_noop
    rw [hi]
    omega

/-- Witness for C8: on the two-episode show, next at the second episode and
prev at the first both change nothing, and end-of-media at the second only
hides the toast. -/
theorem C8_boundary_noop_witness :
    Streamer.next_ep sLast eps1 = sLast
  ∧ Streamer.on_status sLast eps1 .endOfMedia = { sLast with toast_visible := false }
  ∧ Streamer.prev_ep baseSession eps1 = baseSession := by
  have h1 := (C8_boundary_noop sLast eps1).1 (by decide)
  have h2 := (C8_boundary_noop baseSession eps1).2 (by decide)
  exact ⟨h1.1, h1.2, h2⟩

/-- Counterexample to C1: a playing session in the last countdown second; the
tick brings the remaining seconds to zero yet the session stays on the same
episode with only the timer stopped — no next episode is loaded. -/
theorem C1_tick_counterexample :
    sTick.playing = true ∧ sTick.cd_sec = 1 ∧ sTick.cd_started = true
  ∧ (Streamer.tick sTick).cd_sec = 0
  ∧ (Streamer.tick sTick).current_path = sTick.current_path
  ∧ Streamer.tick sTick = { sTick with cd_sec := 0, cd_timer_active := false } := by
  decide

/-- C1 as amended: when the countdown tick decrements the remaining seconds
to zero it only stops the countdown timer, leaving the session (in
particular the current episode) otherwise unchanged; the advance to the next
episode in catalog order is performed by the end-of-media status handler
instead. -/
theorem C1_tick_stops_timer (s : Session) (eps : List (String × String)) (t p : String)
    (hp : s.playing = true) (h1 : s.cd_sec = 1) :
    Streamer.tick s = { s with cd_sec := 0, cd_timer_active := false }
  ∧ (eps[(eps.map Prod.snd).indexOf s.current_path + 1]? = some (t, p) →
      (Streamer.on_status s eps .endOfMedia).current_path = p
      ∧ (Streamer.on_status s eps .endOfMedia).playing = true) := by
  constructor
  · unfold Streamer.tick
    rw [if_neg (by rw [hp]; exact fun h => Bool.noConfusion h), h1]
    norm_num
  · intro h
    have e := Streamer.next_ep_spec { s with toast_visible := false } eps t p h
    constructor
    · show (Streamer.next_ep { s with toast_visible := false } eps).current_path = p
      rw [e]
      rfl
    · show (Streamer.next_ep { s with toast_visible := false } eps).playing = true
      rw [e]
      rfl

/-- Witness for C1 as amended, on the session in the last countdown second:
the tick stops the timer without changing the episode, and end-of-media does
advance to the second episode. -/
theorem C1_tick_stops_timer_witness :
    Streamer.tick sTick = { sTick with cd_sec := 0, cd_timer_active := false }
  ∧ (Streamer.on_status sTick eps1 .endOfMedia).current_path = "p2" := by
  have h := C1_tick_stops_timer sTick eps1 "E2" "p2" (by decide) (by decide)
  exact ⟨h.1, (h.2 (by decide)).1⟩

/-! ## Catalog ordering -/

/-- The name of a kept show entry is the name of its listing entry. -/
theorem showEntry_name {base : String} {e : String × Bool} {x : String × String}
    (hx : x ∈ showEntry base e) : x.1 = e.1 := by
  unfold showEntry at hx
  split at hx
  · rw [Option.mem_some_iff] at hx
    rw [← hx]
  · exact absurd hx (by simp)

/-- The names contributed by one directory are sorted. -/
theorem dirShows_names_sorted (base : String) (listing : Listing) :
    List.Sorted (· ≤ ·) ((dirShows base listing).map Prod.fst) := by
  have hs : List.Pairwise nameLE (List.insertionSort nameLE listing) :=
    List.sorted_insertionSort nameLE listing
  unfold dirShows List.Sorted
  rw [List.pairwise_map, List.pairwise_filterMap]
  refine hs.imp ?_
  intro a b hab x hx y hy
  rw [showEntry_name hx, showEntry_name hy]
  exact hab

/-- Counterexample to C9: a local show Zeta and a mounted show Alpha come
back in that order, so the merged sequence is not sorted by name. -/
theorem C9_not_globally_sorted :
    (scan_shows fs9).map Prod.fst = ["Zeta", "Alpha"]
  ∧ ¬ List.Sorted (· ≤ ·) ((scan_shows fs9).map Prod.fst) := by
  have he : (scan_shows fs9).map Prod.fst = ["Zeta", "Alpha"] := by rfl
  refine ⟨he, ?_⟩
  rw [he]
  intro hs
  have hle : ("Zeta" : String) ≤ "Alpha" :=
    List.rel_of_sorted_cons hs "Alpha" (by simp)
  rw [String.le_iff_toList_le] at hle
  exact absurd hle (by decide)

/-- C9 as amended: show entries are sorted by name within each directory
contribution; the contributions are concatenated in root order (the local
MyShows directory first, then each mount base) rather than globally sorted;
a missing local root or mount base contributes nothing and the scan still
returns. -/
theorem C9_roots_concatenated (fs : FS) (base bpath : String) (listing : Listing)
    (units : List MountUnit) :
    List.Sorted (· ≤ ·) ((dirShows base listing).map Prod.fst)
  ∧ scan_shows { localMyShows := none, mounts := fs.mounts } = fs.mounts.flatMap mountShows
  ∧ mountShows { path := bpath, present := false, units := units } = []
  ∧ scan_shows { localMyShows := some listing, mounts := fs.mounts } =
      dirShows (pathJoin BASE_DIR "MyShows") listing ++ fs.mounts.flatMap mountShows := by
  exact ⟨dirShows_names_sorted base listing, rfl, rfl, rfl⟩

end MiniNetflix
